import Mathlib

/-!
Verification development for the pynetatmo credential lifecycle manager
(src/pynetatmo.py). The core under study is the method
Weatherstation._get_or_refresh_tokens together with its helpers
Weatherstation._get_token (password-grant acquisition) and
Weatherstation._refresh_token (refresh-grant exchange).

The embedding is shallow:
* YAML/JSON dictionaries become association lists of string keys and values
  (strings or integers); a Python dict access d[k] that can raise KeyError
  becomes an Except returning PyError.keyError.
* datetime.datetime.strptime with format "%Y-%m-%dT%H:%M:%S.%f" becomes the
  string parse function strptimeIso; datetime.isoformat() becomes isoformat
  (which, as in Python, omits the fractional part when microsecond = 0).
* Wall-clock arithmetic ((utcnow() - lastupdate).total_seconds()) is done in
  exact integer microseconds via the proleptic-Gregorian ordinal used by
  Python's datetime (epochMicros); the comparison
  diffsecs > expires_in becomes diffMicros > expires_in * 1000000.
* Network traffic is explicit: the provider's responses to the (at most one)
  refresh or acquire request are inputs, and the run returns the list of
  network calls it made.
* Raised Python exceptions (KeyError, ValueError, TypeError, SystemExit)
  become an error result; on an exception the run reports the error, the
  final file state and the network calls made (in-memory config writes that
  happened before the exception are not tracked further).
-/

namespace Pynetatmo

/-- A scalar YAML/JSON value as it occurs in the token store and in the
provider's token responses: an opaque string or an integer. -/
inductive Value where
  | str (s : String)
  | int (n : Int)
deriving DecidableEq, Repr

/-- A YAML/JSON dictionary, modelled as an association list. -/
abbrev Dict : Type := List (String × Value)

/-- Dictionary read: d.get(k) — the first binding of key k, if any. -/
def lookupKey : Dict → String → Option Value
  | [], _ => none
  | p :: rest, k => if p.1 = k then some p.2 else lookupKey rest k

/-- Dictionary write: d[k] = v. An existing binding (keys are unique in a
Python dict) is overwritten in place, a new key is appended at the end
(Python dicts preserve insertion order). -/
def setKey : Dict → String → Value → Dict
  | [], k, v => [(k, v)]
  | p :: rest, k, v =>
      if p.1 = k then (k, v) :: rest else p :: setKey rest k v

/-- The Python exceptions the credential core can raise: KeyError from a
dict access, ValueError from datetime.strptime, TypeError from using a
non-string where strptime needs one or comparing a float against a
non-number, and SystemExit from the sys.exit() call in _get_token. -/
inductive PyError where
  | keyError (k : String)
  | valueError
  | typeError
  | systemExit
deriving DecidableEq, Repr

/-- A naive UTC datetime, as Python's datetime.datetime. -/
structure Datetime where
  year : Nat
  month : Nat
  day : Nat
  hour : Nat
  minute : Nat
  second : Nat
  microsecond : Nat
deriving DecidableEq, Repr

/-- Gregorian leap-year test. -/
def isLeap (y : Nat) : Bool :=
  (y % 4 == 0 && y % 100 != 0) || y % 400 == 0

/-- Length of month m (1-12) in a (non-)leap year. -/
def daysInMonth (leap : Bool) (m : Nat) : Nat :=
  if m = 2 then (if leap then 29 else 28)
  else if m = 4 ∨ m = 6 ∨ m = 9 ∨ m = 11 then 30
  else 31

/-- Days in the months strictly before month m. -/
def daysBeforeMonth (leap : Bool) (m : Nat) : Nat :=
  (List.range (m - 1)).foldl (fun a k => a + daysInMonth leap (k + 1)) 0

/-- Proleptic-Gregorian ordinal of a date (0001-01-01 is day 1), as
Python's datetime.date.toordinal. -/
def toOrdinal (y m d : Nat) : Nat :=
  let py := y - 1
  365 * py + py / 4 + py / 400 - py / 100 + daysBeforeMonth (isLeap y) m + d

/-- A datetime as a number of microseconds on the proleptic-Gregorian time
line. Differences of this quantity are exactly Python's
(a - b).total_seconds() scaled by 10^6. -/
def epochMicros (t : Datetime) : Nat :=
  ((((toOrdinal t.year t.month t.day) * 24 + t.hour) * 60 + t.minute) * 60
      + t.second) * 1000000 + t.microsecond

/-- Read exactly n leading decimal digits. -/
def readFixed : Nat → Nat → List Char → Option (Nat × List Char)
  | 0, acc, rest => some (acc, rest)
  | Nat.succ k, acc, c :: rest =>
      if c.isDigit then readFixed k (acc * 10 + (c.toNat - 48)) rest else none
  | Nat.succ _, _, [] => none

/-- Consume one expected literal character. -/
def expectCh (c : Char) : List Char → Option (List Char)
  | d :: rest => if d = c then some rest else none
  | [] => none

/-- The %f directive: one to six digits, right-padded to microseconds, and
(as the directive is last in the format) nothing may follow. -/
def readFraction (cs : List Char) : Option Nat :=
  let ds := cs.takeWhile Char.isDigit
  if ds.length = 0 ∨ 6 < ds.length ∨ cs.drop ds.length ≠ [] then none
  else some ((ds.foldl (fun a c => a * 10 + (c.toNat - 48)) 0)
      * 10 ^ (6 - ds.length))

/-- datetime.datetime.strptime(s, "%Y-%m-%dT%H:%M:%S.%f"): parse an
ISO-8601 timestamp with a mandatory fractional-seconds part, validating the
ranges datetime enforces. Returns none where Python raises ValueError. -/
def strptimeIso (s : String) : Option Datetime :=
  match readFixed 4 0 s.toList with
  | none => none
  | some (y, r1) =>
  match expectCh (Char.ofNat 45) r1 with
  | none => none
  | some r2 =>
  match readFixed 2 0 r2 with
  | none => none
  | some (mo, r3) =>
  match expectCh (Char.ofNat 45) r3 with
  | none => none
  | some r4 =>
  match readFixed 2 0 r4 with
  | none => none
  | some (da, r5) =>
  match expectCh (Char.ofNat 84) r5 with
  | none => none
  | some r6 =>
  match readFixed 2 0 r6 with
  | none => none
  | some (ho, r7) =>
  match expectCh (Char.ofNat 58) r7 with
  | none => none
  | some r8 =>
  match readFixed 2 0 r8 with
  | none => none
  | some (mi, r9) =>
  match expectCh (Char.ofNat 58) r9 with
  | none => none
  | some r10 =>
  match readFixed 2 0 r10 with
  | none => none
  | some (se, r11) =>
  match expectCh (Char.ofNat 46) r11 with
  | none => none
  | some r12 =>
  match readFraction r12 with
  | none => none
  | some us =>
  if 1 ≤ y ∧ 1 ≤ mo ∧ mo ≤ 12 ∧ 1 ≤ da ∧ da ≤ daysInMonth (isLeap y) mo
      ∧ ho ≤ 23 ∧ mi ≤ 59 ∧ se ≤ 59 then
    some ⟨y, mo, da, ho, mi, se, us⟩
  else none

/-- Zero-pad a number to a fixed width. -/
def padNum (w n : Nat) : String :=
  let s := toString n
  String.mk (List.replicate (w - s.length) (Char.ofNat 48) ++ s.toList)

/-- datetime.isoformat(): as in Python, the ".%06d" microsecond part is
omitted when microsecond = 0. -/
def isoformat (t : Datetime) : String :=
  padNum 4 t.year ++ "-" ++ padNum 2 t.month ++ "-" ++ padNum 2 t.day ++ "T"
    ++ padNum 2 t.hour ++ ":" ++ padNum 2 t.minute ++ ":" ++ padNum 2 t.second
    ++ (if t.microsecond = 0 then "" else "." ++ padNum 6 t.microsecond)

/-- The in-memory self.config dictionary, with the credential fields the
core reads (always present, supplied by the YAML config file) and the token
fields the core writes during a run (absent until installed). -/
structure Config where
  client_id : String
  client_secret : String
  username : String
  password : String
  access_token : Option Value := none
  refresh_token : Option Value := none
  expires_in : Option Value := none
deriving DecidableEq, Repr

/-- An HTTP response from the provider's token endpoint: status code and
parsed JSON body. -/
structure Response where
  status : Int
  body : Dict
deriving DecidableEq, Repr

/-- A network call made against the provider: the password-grant request of
_get_token, or the refresh-grant request of _refresh_token carrying the
refresh token placed in its payload. -/
inductive NetCall where
  | acquire
  | refresh (token : Value)
deriving DecidableEq, Repr

/-- The loaded-and-validated token store: the four persisted fields, read
and checked exactly as lines 109-119 of _get_or_refresh_tokens do. The
timestamp is kept in its stored string form. -/
structure StoreRecord where
  access_token : Value
  refresh_token : Value
  expires_in : Int
  tokens_last_updated : String
deriving DecidableEq, Repr

/-- TokenStore.Load: field extraction and validation of a persisted store
dict, mirroring _get_or_refresh_tokens lines 109-119 in order: the dict
accesses for access_token, refresh_token, expires_in, tokens_last_updated
(KeyError when missing), then strptime of the timestamp (TypeError on a
non-string, ValueError when unparseable), then the numeric use of
expires_in in the age comparison (TypeError on a non-number). -/
def loadStore (d : Dict) : Except PyError StoreRecord :=
  match lookupKey d "access_token" with
  | none => .error (.keyError "access_token")
  | some a =>
  match lookupKey d "refresh_token" with
  | none => .error (.keyError "refresh_token")
  | some r =>
  match lookupKey d "expires_in" with
  | none => .error (.keyError "expires_in")
  | some ei =>
  match lookupKey d "tokens_last_updated" with
  | none => .error (.keyError "tokens_last_updated")
  | some tlu =>
  match tlu with
  | .int _ => .error .typeError
  | .str s =>
  match strptimeIso s with
  | none => .error .valueError
  | some _ =>
  match ei with
  | .str _ => .error .typeError
  | .int n => .ok ⟨a, r, n, s⟩

/-- TokenStore.Save: the dict yaml.dump writes for a record (PyYAML sorts
keys alphabetically; key order is unobservable through lookupKey). -/
def saveStore (r : StoreRecord) : Dict :=
  [("access_token", r.access_token),
   ("expires_in", Value.int r.expires_in),
   ("refresh_token", r.refresh_token),
   ("tokens_last_updated", Value.str r.tokens_last_updated)]

/-- _get_token (lines 66-83): posts the password grant, and on a non-ok
status logs and calls sys.exit(); otherwise returns the parsed JSON body.
The response is the input; the network call itself is recorded by the
caller. -/
def getToken (resp : Response) : Except PyError Dict :=
  if resp.status ≠ 200 then .error .systemExit else .ok resp.body

/-- _refresh_token (lines 85-96): builds the payload — reading
self.config[refresh_token], a KeyError when absent — posts the refresh
grant and returns the parsed JSON body. The response status is never
inspected. -/
def refreshTokenFn (cfg : Config) (resp : Response) : Except PyError Dict :=
  match cfg.refresh_token with
  | none => .error (.keyError "refresh_token")
  | some _ => .ok resp.body

/-- Lines 124-126: overwrite a store dict's access_token, refresh_token
and tokens_last_updated (with utcnow().isoformat()); expires_in is left
untouched. -/
def refreshedStore (store : Dict) (na nr : Value) (now : Datetime) : Dict :=
  setKey (setKey (setKey store "access_token" na) "refresh_token" nr)
    "tokens_last_updated" (Value.str (isoformat now))

/-- Lines 122-126: read the new access and refresh tokens out of the
refresh response body (the access-token read happens first, inside the
debug log of line 123, so a missing key raises KeyError there), then
overwrite the store dict with them. -/
def applyNewStore (store newstore : Dict) (now : Datetime) :
    Except PyError Dict :=
  match lookupKey newstore "access_token" with
  | none => .error (.keyError "access_token")
  | some na =>
  match lookupKey newstore "refresh_token" with
  | none => .error (.keyError "refresh_token")
  | some nr =>
  .ok (refreshedStore store na nr now)

/-- Lines 132-135: populate a fresh store dict from an acquisition
response body: tokens_last_updated := utcnow().isoformat() first, then the
three fields copied from the body (KeyError when one is missing). -/
def buildNewStore (tokens : Dict) (now : Datetime) : Except PyError Dict :=
  let s1 := setKey [] "tokens_last_updated" (Value.str (isoformat now))
  match lookupKey tokens "access_token" with
  | none => .error (.keyError "access_token")
  | some a =>
  match lookupKey tokens "refresh_token" with
  | none => .error (.keyError "refresh_token")
  | some rt =>
  match lookupKey tokens "expires_in" with
  | none => .error (.keyError "expires_in")
  | some ei =>
  .ok (setKey (setKey (setKey s1 "access_token" a) "refresh_token" rt)
      "expires_in" ei)

/-- Lines 138-140: install the store's access_token, refresh_token and
expires_in into self.config (a KeyError if one is missing). -/
def installConfig (cfg : Config) (store : Dict) : Except PyError Config :=
  match lookupKey store "access_token" with
  | none => .error (.keyError "access_token")
  | some a =>
  match lookupKey store "refresh_token" with
  | none => .error (.keyError "refresh_token")
  | some r =>
  match lookupKey store "expires_in" with
  | none => .error (.keyError "expires_in")
  | some e =>
  .ok { cfg with access_token := some a, refresh_token := some r,
                 expires_in := some e }

/-- The observable outcome of one _get_or_refresh_tokens call: the raised
exception if any (none = normal return), the token-store file afterwards
(none = no file), the in-memory config afterwards, and the network calls
made, in order. -/
structure RunState where
  result : Option PyError
  fs : Option Dict
  cfg : Config
  calls : List NetCall
deriving DecidableEq, Repr

/-- _get_or_refresh_tokens (lines 98-145), the CredentialManager's
GetValidToken. Inputs: the config, the token-store file contents (none when
os.path.isfile is false), the current UTC time, and the provider's
responses should a refresh or an acquire request be issued. The branch on
an existing file loads and validates the store (loadStore), installs the
three token fields into config (lines 109-111), and refreshes exactly when
diffsecs > expires_in; the no-file branch acquires. Either branch then
reinstalls config from the final store (lines 138-140) and writes the file
iff haschanged. -/
def getOrRefreshTokens (cfg : Config) (fs : Option Dict) (now : Datetime)
    (refreshResp acquireResp : Response) : RunState :=
  match fs with
  | some store =>
    match loadStore store with
    | .error e => ⟨some e, some store, cfg, []⟩
    | .ok r =>
      let cfg1 := { cfg with access_token := some r.access_token,
                             refresh_token := some r.refresh_token,
                             expires_in := some (Value.int r.expires_in) }
      match strptimeIso r.tokens_last_updated with
      | none => ⟨some .valueError, some store, cfg1, []⟩
      | some lastupdate =>
        if (epochMicros now : Int) - (epochMicros lastupdate : Int)
            > r.expires_in * 1000000 then
          match refreshTokenFn cfg1 refreshResp with
          | .error e => ⟨some e, some store, cfg1, []⟩
          | .ok newstore =>
            match applyNewStore store newstore now with
            | .error e =>
                ⟨some e, some store, cfg1, [.refresh r.refresh_token]⟩
            | .ok store2 =>
              match installConfig cfg1 store2 with
              | .error e =>
                  ⟨some e, some store, cfg1, [.refresh r.refresh_token]⟩
              | .ok cfg2 =>
                  ⟨none, some store2, cfg2, [.refresh r.refresh_token]⟩
        else
          match installConfig cfg1 store with
          | .error e => ⟨some e, some store, cfg1, []⟩
          | .ok cfg2 => ⟨none, some store, cfg2, []⟩
  | none =>
    match getToken acquireResp with
    | .error e => ⟨some e, none, cfg, [.acquire]⟩
    | .ok tokens =>
      match buildNewStore tokens now with
      | .error e => ⟨some e, none, cfg, [.acquire]⟩
      | .ok store =>
        match installConfig cfg store with
        | .error e => ⟨some e, none, cfg, [.acquire]⟩
        | .ok cfg2 => ⟨none, some store, cfg2, [.acquire]⟩

/-!
Interleaving model for concurrent calls. _get_or_refresh_tokens takes no
lock of any kind, so two concurrent calls interleave at the granularity of
its externally visible steps on the existing-file path: (1) read the
token-store file (lines 104-107), (2) validate, check staleness and — when
stale — issue the refresh request and compute the updated store dict
(lines 109-127), (3) write the file (lines 142-145). The shared state is
the file; each thread works on the copy it read. The refresh HTTP request
is the counted provider call.
-/

/-- The program counter of one in-flight _get_or_refresh_tokens call on the
existing-file path. -/
inductive Phase where
  | ready
  | loaded (store : Dict)
  | toSave (store : Dict) (tok : Value)
  | finished (tok : Option Value)
  | failed
deriving DecidableEq, Repr

/-- One atomic step of a single call: file read, or
validate-check-(refresh)-update, or file write. Returns the new phase, the
new file contents, and how many refresh requests the step sent (0 or 1). -/
def stepThread (now : Datetime) (resp : Response) (ph : Phase) (fs : Dict) :
    Phase × Dict × Nat :=
  match ph with
  | .ready => (.loaded fs, fs, 0)
  | .loaded store =>
    match loadStore store with
    | .error _ => (.failed, fs, 0)
    | .ok r =>
      match strptimeIso r.tokens_last_updated with
      | none => (.failed, fs, 0)
      | some lastupdate =>
        if (epochMicros now : Int) - (epochMicros lastupdate : Int)
            > r.expires_in * 1000000 then
          match applyNewStore store resp.body now with
          | .error _ => (.failed, fs, 1)
          | .ok store2 =>
            match lookupKey store2 "access_token" with
            | some tok => (.toSave store2 tok, fs, 1)
            | none => (.failed, fs, 1)
        else
          match lookupKey store "access_token" with
          | some tok => (.finished (some tok), fs, 0)
          | none => (.failed, fs, 0)
  | .toSave store tok => (.finished (some tok), store, 0)
  | .finished t => (.finished t, fs, 0)
  | .failed => (.failed, fs, 0)

/-- Two concurrent _get_or_refresh_tokens calls over one shared token-store
file, with a count of refresh requests sent so far. -/
structure Sys where
  fs : Dict
  t1 : Phase
  t2 : Phase
  refreshes : Nat
deriving DecidableEq, Repr

/-- Run one step of thread 1 (true) or thread 2 (false); each thread has
its own provider response. -/
def stepSys (now : Datetime) (r1 r2 : Response) (which : Bool) (s : Sys) :
    Sys :=
  if which then
    match stepThread now r1 s.t1 s.fs with
    | (p, f, n) => { s with t1 := p, fs := f, refreshes := s.refreshes + n }
  else
    match stepThread now r2 s.t2 s.fs with
    | (p, f, n) => { s with t2 := p, fs := f, refreshes := s.refreshes + n }

/-- Run a whole schedule of interleaved steps. -/
def runSched (now : Datetime) (r1 r2 : Response) :
    List Bool → Sys → Sys
  | [], s => s
  | b :: bs, s => runSched now r1 r2 bs (stepSys now r1 r2 b s)

/-!
Concrete sample data for witnesses and counterexamples. The record was
issued at 2017-06-21T11:00:00.500000 UTC with a 10800-second (3-hour)
validity window, matching the scenario of the testable-properties section.
-/

/-- A configuration as loaded from settings.yaml, before any token work. -/
def sampleConfig : Config :=
  { client_id := "cid", client_secret := "secret",
    username := "user", password := "pw" }

/-- A well-formed persisted token store. -/
def sampleStore : Dict :=
  [("access_token", Value.str "AT0"),
   ("expires_in", Value.int 10800),
   ("refresh_token", Value.str "RT0"),
   ("tokens_last_updated", Value.str "2017-06-21T11:00:00.500000")]

/-- The record sampleStore persists. -/
def sampleRecord : StoreRecord :=
  ⟨Value.str "AT0", Value.str "RT0", 10800, "2017-06-21T11:00:00.500000"⟩

/-- The issue instant of sampleRecord. -/
def sampleLast : Datetime := ⟨2017, 6, 21, 11, 0, 0, 500000⟩

/-- 100 seconds after issuance: well inside the validity window. -/
def validNow : Datetime := ⟨2017, 6, 21, 11, 1, 40, 500000⟩

/-- 200 seconds after issuance: still inside the validity window. -/
def validNow2 : Datetime := ⟨2017, 6, 21, 11, 3, 20, 500000⟩

/-- Exactly 10800 seconds after issuance: age equals expires_in. -/
def boundaryNow : Datetime := ⟨2017, 6, 21, 14, 0, 0, 500000⟩

/-- 10801 seconds after issuance: past the validity window. -/
def staleNow : Datetime := ⟨2017, 6, 21, 14, 0, 1, 500000⟩

/-- A successful refresh response; its expires_in (99999) differs from the
stored one on purpose. -/
def refreshResp1 : Response :=
  ⟨200, [("access_token", Value.str "AT1"),
         ("refresh_token", Value.str "RT1"),
         ("expires_in", Value.int 99999)]⟩

/-- A second successful refresh response with different tokens. -/
def refreshResp2 : Response :=
  ⟨200, [("access_token", Value.str "AT2"),
         ("refresh_token", Value.str "RT2"),
         ("expires_in", Value.int 10800)]⟩

/-- A successful password-grant response. -/
def acquireRespOk : Response :=
  ⟨200, [("access_token", Value.str "ATA"),
         ("refresh_token", Value.str "RTA"),
         ("expires_in", Value.int 10800)]⟩

/-- A provider rejection: non-success status, JSON error body. -/
def rejectResp : Response := ⟨400, [("error", Value.str "invalid_grant")]⟩

/-- A persisted store missing the required expires_in field. -/
def malformedStore : Dict :=
  [("access_token", Value.str "AT0"),
   ("refresh_token", Value.str "RT0"),
   ("tokens_last_updated", Value.str "2017-06-21T11:00:00.500000")]

/-! Association-list facts and run-shape lemmas shared by the claim
theorems. -/

theorem lookupKey_setKey_self (d : Dict) (k : String) (v : Value) :
    lookupKey (setKey d k v) k = some v := by
  induction d with
  | nil => simp [setKey, lookupKey]
  | cons p rest ih =>
      by_cases h : p.1 = k
      · simp [setKey, h, lookupKey]
      · simp [setKey, h, lookupKey, ih]

theorem lookupKey_setKey_ne (d : Dict) (k j : String) (v : Value)
    (h : j ≠ k) : lookupKey (setKey d k v) j = lookupKey d j := by
  induction d with
  | nil => simp [setKey, lookupKey, Ne.symm h]
  | cons p rest ih =>
      by_cases hp : p.1 = k
      · simp [setKey, hp, lookupKey, Ne.symm h]
      · simp [setKey, hp, lookupKey, ih]

theorem loadStore_lookups (d : Dict) (r : StoreRecord)
    (h : loadStore d = .ok r) :
    lookupKey d "access_token" = some r.access_token ∧
    lookupKey d "refresh_token" = some r.refresh_token ∧
    lookupKey d "expires_in" = some (Value.int r.expires_in) ∧
    lookupKey d "tokens_last_updated" =
      some (Value.str r.tokens_last_updated) := by
  unfold loadStore at h
  cases hA : lookupKey d "access_token" with
  | none => simp [hA] at h
  | some a =>
  cases hR : lookupKey d "refresh_token" with
  | none => simp [hA, hR] at h
  | some rt =>
  cases hE : lookupKey d "expires_in" with
  | none => simp [hA, hR, hE] at h
  | some ei =>
  cases hT : lookupKey d "tokens_last_updated" with
  | none => simp [hA, hR, hE, hT] at h
  | some tlu =>
  cases tlu with
  | int n => simp [hA, hR, hE, hT] at h
  | str s =>
  cases hP : strptimeIso s with
  | none => simp [hA, hR, hE, hT, hP] at h
  | some lu =>
  cases ei with
  | str t => simp [hA, hR, hE, hT, hP] at h
  | int n =>
      simp [hA, hR, hE, hT, hP] at h
      cases h
      simp [hA, hR, hE, hT]

theorem lookupKey_refreshedStore_access (d : Dict) (na nr : Value)
    (now : Datetime) :
    lookupKey (refreshedStore d na nr now) "access_token" = some na := by
  unfold refreshedStore
  rw [lookupKey_setKey_ne _ _ _ _ (by decide),
      lookupKey_setKey_ne _ _ _ _ (by decide), lookupKey_setKey_self]

theorem lookupKey_refreshedStore_refresh (d : Dict) (na nr : Value)
    (now : Datetime) :
    lookupKey (refreshedStore d na nr now) "refresh_token" = some nr := by
  unfold refreshedStore
  rw [lookupKey_setKey_ne _ _ _ _ (by decide), lookupKey_setKey_self]

theorem lookupKey_refreshedStore_tlu (d : Dict) (na nr : Value)
    (now : Datetime) :
    lookupKey (refreshedStore d na nr now) "tokens_last_updated" =
      some (Value.str (isoformat now)) := by
  unfold refreshedStore
  rw [lookupKey_setKey_self]

theorem lookupKey_refreshedStore_expires (d : Dict) (na nr : Value)
    (now : Datetime) :
    lookupKey (refreshedStore d na nr now) "expires_in" =
      lookupKey d "expires_in" := by
  unfold refreshedStore
  rw [lookupKey_setKey_ne _ _ _ _ (by decide),
      lookupKey_setKey_ne _ _ _ _ (by decide),
      lookupKey_setKey_ne _ _ _ _ (by decide)]

/-- Shape of a run on a valid record: the loaded-file branch with the age
not exceeding expires_in installs the stored fields and changes nothing. -/
theorem valid_run (cfg : Config) (d : Dict) (r : StoreRecord)
    (lu now : Datetime) (rr ar : Response)
    (hl : loadStore d = .ok r)
    (hp : strptimeIso r.tokens_last_updated = some lu)
    (hv : ¬ ((epochMicros now : Int) - (epochMicros lu : Int)
        > r.expires_in * 1000000)) :
    getOrRefreshTokens cfg (some d) now rr ar =
      ⟨none, some d,
       { cfg with access_token := some r.access_token,
                  refresh_token := some r.refresh_token,
                  expires_in := some (Value.int r.expires_in) }, []⟩ := by
  obtain ⟨hA, hR, hE, hT⟩ := loadStore_lookups d r hl
  simp [getOrRefreshTokens, hl, hp, hv, installConfig, hA, hR, hE]

/-- Shape of a run on a stale record with a refresh response carrying both
tokens: one refresh call, the store overwritten in place (new tokens, fresh
timestamp, expires_in untouched), and the new fields installed. -/
theorem stale_run (cfg : Config) (d : Dict) (r : StoreRecord)
    (lu now : Datetime) (rr ar : Response) (na nr : Value)
    (hl : loadStore d = .ok r)
    (hp : strptimeIso r.tokens_last_updated = some lu)
    (hs : (epochMicros now : Int) - (epochMicros lu : Int)
        > r.expires_in * 1000000)
    (ha : lookupKey rr.body "access_token" = some na)
    (hr : lookupKey rr.body "refresh_token" = some nr) :
    getOrRefreshTokens cfg (some d) now rr ar =
      ⟨none, some (refreshedStore d na nr now),
       { cfg with access_token := some na, refresh_token := some nr,
                  expires_in := some (Value.int r.expires_in) },
       [.refresh r.refresh_token]⟩ := by
  obtain ⟨hA, hR, hE, hT⟩ := loadStore_lookups d r hl
  have e3 := lookupKey_refreshedStore_expires d na nr now
  rw [hE] at e3
  simp [getOrRefreshTokens, hl, hp, hs, refreshTokenFn, applyNewStore,
        ha, hr, installConfig, lookupKey_refreshedStore_access,
        lookupKey_refreshedStore_refresh, e3]

/-- Shape of a run with no persisted file and a successful acquisition:
one acquire call, a fresh store persisted, the new fields installed. -/
theorem acquire_run (cfg : Config) (now : Datetime) (rr ar : Response)
    (a t e : Value)
    (h200 : ar.status = 200)
    (ha : lookupKey ar.body "access_token" = some a)
    (hr : lookupKey ar.body "refresh_token" = some t)
    (he : lookupKey ar.body "expires_in" = some e) :
    getOrRefreshTokens cfg none now rr ar =
      ⟨none,
       some [("tokens_last_updated", Value.str (isoformat now)),
             ("access_token", a), ("refresh_token", t), ("expires_in", e)],
       { cfg with access_token := some a, refresh_token := some t,
                  expires_in := some e },
       [.acquire]⟩ := by
  simp [getOrRefreshTokens, getToken, h200, buildNewStore, setKey,
        ha, hr, he, installConfig, lookupKey]

/-! The claims. -/

/-- C1: for every persisted record whose age (now minus its
tokens_last_updated timestamp) is strictly less than its expires_in, a
call to _get_or_refresh_tokens makes zero network calls (neither acquire
nor refresh) and installs the stored access token unchanged; the file is
left as it was. -/
theorem claimC1 (cfg : Config) (d : Dict) (r : StoreRecord)
    (lu now : Datetime) (rr ar : Response)
    (hl : loadStore d = .ok r)
    (hp : strptimeIso r.tokens_last_updated = some lu)
    (hv : (epochMicros now : Int) - (epochMicros lu : Int)
        < r.expires_in * 1000000) :
    getOrRefreshTokens cfg (some d) now rr ar =
      ⟨none, some d,
       { cfg with access_token := some r.access_token,
                  refresh_token := some r.refresh_token,
                  expires_in := some (Value.int r.expires_in) }, []⟩ :=
  valid_run cfg d r lu now rr ar hl hp (by omega)

/-- C1 witness: the sample record queried 100 seconds after issuance. -/
theorem claimC1_witness :
    getOrRefreshTokens sampleConfig (some sampleStore) validNow
        refreshResp1 acquireRespOk =
      ⟨none, some sampleStore,
       { sampleConfig with
           access_token := some sampleRecord.access_token,
           refresh_token := some sampleRecord.refresh_token,
           expires_in := some (Value.int sampleRecord.expires_in) }, []⟩ :=
  claimC1 sampleConfig sampleStore sampleRecord sampleLast validNow
    refreshResp1 acquireRespOk (by rfl) (by rfl) (by decide)

/-- C2 counterexample: at age exactly equal to expires_in (so the claim's
premise age ≥ expires_in holds) the code does not refresh: the condition
on line 119 is strict (diffsecs > expires_in), so the run makes zero
network calls and leaves the store untouched instead of refreshing. -/
theorem claimC2_counterexample :
    (epochMicros boundaryNow : Int) - (epochMicros sampleLast : Int) =
      sampleRecord.expires_in * 1000000 ∧
    getOrRefreshTokens sampleConfig (some sampleStore) boundaryNow
        refreshResp1 acquireRespOk =
      ⟨none, some sampleStore,
       { sampleConfig with
           access_token := some sampleRecord.access_token,
           refresh_token := some sampleRecord.refresh_token,
           expires_in := some (Value.int sampleRecord.expires_in) }, []⟩ :=
  ⟨by decide, by decide⟩

/-- C2 (amended): for every persisted record whose age is strictly greater
than its expires_in, the run calls refresh exactly once with the stored
refresh token, and persists the refresh result — overwriting the old
record, including replacing the old refresh token with the newly issued
one — before returning the new access token. -/
theorem claimC2 (cfg : Config) (d : Dict) (r : StoreRecord)
    (lu now : Datetime) (rr ar : Response) (na nr : Value)
    (hl : loadStore d = .ok r)
    (hp : strptimeIso r.tokens_last_updated = some lu)
    (hs : (epochMicros now : Int) - (epochMicros lu : Int)
        > r.expires_in * 1000000)
    (ha : lookupKey rr.body "access_token" = some na)
    (hr : lookupKey rr.body "refresh_token" = some nr) :
    getOrRefreshTokens cfg (some d) now rr ar =
      ⟨none, some (refreshedStore d na nr now),
       { cfg with access_token := some na, refresh_token := some nr,
                  expires_in := some (Value.int r.expires_in) },
       [.refresh r.refresh_token]⟩ :=
  stale_run cfg d r lu now rr ar na nr hl hp hs ha hr

/-- C2 witness: the sample record queried 10801 seconds after issuance
refreshes once with the stored refresh token RT0 and persists AT1/RT1. -/
theorem claimC2_witness :
    getOrRefreshTokens sampleConfig (some sampleStore) staleNow
        refreshResp1 acquireRespOk =
      ⟨none,
       some (refreshedStore sampleStore (Value.str "AT1")
          (Value.str "RT1") staleNow),
       { sampleConfig with
           access_token := some (Value.str "AT1"),
           refresh_token := some (Value.str "RT1"),
           expires_in := some (Value.int sampleRecord.expires_in) },
       [.refresh sampleRecord.refresh_token]⟩ :=
  claimC2 sampleConfig sampleStore sampleRecord sampleLast staleNow
    refreshResp1 acquireRespOk (Value.str "AT1") (Value.str "RT1")
    (by rfl) (by rfl) (by decide) (by rfl) (by rfl)

/-- C3: when no persisted file exists, the run calls acquire exactly once,
persists the resulting record (access token, refresh token, expires_in,
and an issued-at timestamp set to now), and installs the new access
token. -/
theorem claimC3 (cfg : Config) (now : Datetime) (rr ar : Response)
    (a t e : Value)
    (h200 : ar.status = 200)
    (ha : lookupKey ar.body "access_token" = some a)
    (hr : lookupKey ar.body "refresh_token" = some t)
    (he : lookupKey ar.body "expires_in" = some e) :
    getOrRefreshTokens cfg none now rr ar =
      ⟨none,
       some [("tokens_last_updated", Value.str (isoformat now)),
             ("access_token", a), ("refresh_token", t), ("expires_in", e)],
       { cfg with access_token := some a, refresh_token := some t,
                  expires_in := some e },
       [.acquire]⟩ :=
  acquire_run cfg now rr ar a t e h200 ha hr he

/-- C3 witness: a first run with a successful password grant. -/
theorem claimC3_witness :
    getOrRefreshTokens sampleConfig none validNow refreshResp1
        acquireRespOk =
      ⟨none,
       some [("tokens_last_updated", Value.str (isoformat validNow)),
             ("access_token", Value.str "ATA"),
             ("refresh_token", Value.str "RTA"),
             ("expires_in", Value.int 10800)],
       { sampleConfig with
           access_token := some (Value.str "ATA"),
           refresh_token := some (Value.str "RTA"),
           expires_in := some (Value.int 10800) },
       [.acquire]⟩ :=
  claimC3 sampleConfig validNow refreshResp1 acquireRespOk
    (Value.str "ATA") (Value.str "RTA") (Value.int 10800)
    (by rfl) (by rfl) (by rfl) (by rfl)

/-- C4 counterexample: on the same non-success provider response (status
400), _get_token fails (sys.exit) but _refresh_token does not fail at all
— it never inspects the status and returns the parsed error body — so
refresh does not share acquire's failure taxonomy and never produces a
rejection carrying the status. -/
theorem claimC4_counterexample :
    refreshTokenFn
        { sampleConfig with refresh_token := some (Value.str "RT0") }
        rejectResp =
      .ok [("error", Value.str "invalid_grant")] ∧
    getToken rejectResp = .error .systemExit :=
  ⟨rfl, rfl⟩

/-- C4 (amended): _refresh_token never inspects the response status and
returns the parsed body for any response; on the stale path, when the
refresh response body lacks access_token (as provider error bodies do),
the run raises KeyError, surfaced to the caller after exactly one refresh
call and no acquire call, and nothing is persisted. -/
theorem claimC4 (cfg : Config) (d : Dict) (r : StoreRecord)
    (lu now : Datetime) (rr ar : Response)
    (hl : loadStore d = .ok r)
    (hp : strptimeIso r.tokens_last_updated = some lu)
    (hs : (epochMicros now : Int) - (epochMicros lu : Int)
        > r.expires_in * 1000000)
    (hna : lookupKey rr.body "access_token" = none) :
    refreshTokenFn
        { cfg with access_token := some r.access_token,
                   refresh_token := some r.refresh_token,
                   expires_in := some (Value.int r.expires_in) } rr =
      .ok rr.body ∧
    getOrRefreshTokens cfg (some d) now rr ar =
      ⟨some (.keyError "access_token"), some d,
       { cfg with access_token := some r.access_token,
                  refresh_token := some r.refresh_token,
                  expires_in := some (Value.int r.expires_in) },
       [.refresh r.refresh_token]⟩ := by
  refine ⟨rfl, ?_⟩
  simp [getOrRefreshTokens, hl, hp, hs, refreshTokenFn, applyNewStore, hna]

/-- C4 witness: the stale sample record with a 400 rejection body. -/
theorem claimC4_witness :
    refreshTokenFn
        { sampleConfig with
            access_token := some sampleRecord.access_token,
            refresh_token := some sampleRecord.refresh_token,
            expires_in := some (Value.int sampleRecord.expires_in) }
        rejectResp =
      .ok rejectResp.body ∧
    getOrRefreshTokens sampleConfig (some sampleStore) staleNow
        rejectResp acquireRespOk =
      ⟨some (.keyError "access_token"), some sampleStore,
       { sampleConfig with
           access_token := some sampleRecord.access_token,
           refresh_token := some sampleRecord.refresh_token,
           expires_in := some (Value.int sampleRecord.expires_in) },
       [.refresh sampleRecord.refresh_token]⟩ :=
  claimC4 sampleConfig sampleStore sampleRecord sampleLast staleNow
    rejectResp acquireRespOk (by rfl) (by rfl) (by decide) (by rfl)

/-- C5: for every failing acquire (non-success response to the password
grant), the error (the sys.exit of line 82, modelled as SystemExit) is
surfaced and nothing is persisted: the token store is left exactly as it
was — absent — before the call. -/
theorem claimC5 (cfg : Config) (now : Datetime) (rr ar : Response)
    (h : ar.status ≠ 200) :
    getOrRefreshTokens cfg none now rr ar =
      ⟨some .systemExit, none, cfg, [.acquire]⟩ := by
  simp [getOrRefreshTokens, getToken, h]

/-- C5 witness: a first run whose password grant is rejected with 400. -/
theorem claimC5_witness :
    getOrRefreshTokens sampleConfig none validNow refreshResp1
        rejectResp =
      ⟨some .systemExit, none, sampleConfig, [.acquire]⟩ :=
  claimC5 sampleConfig validNow refreshResp1 rejectResp (by decide)

/-- C6: for every persisted store that exists but is malformed — loadStore
fails (missing required field, non-string or unparseable timestamp,
non-numeric expires_in) — the run surfaces that load error, makes no
network call at all (in particular no acquire: absence is not assumed),
and leaves the file as it was. -/
theorem claimC6 (cfg : Config) (d : Dict) (e : PyError) (now : Datetime)
    (rr ar : Response)
    (h : loadStore d = .error e) :
    getOrRefreshTokens cfg (some d) now rr ar =
      ⟨some e, some d, cfg, []⟩ := by
  simp [getOrRefreshTokens, h]

/-- C6 witness: a persisted store missing expires_in fails its load with
KeyError and the run surfaces it without attempting acquire. -/
theorem claimC6_witness :
    getOrRefreshTokens sampleConfig (some malformedStore) validNow
        refreshResp1 acquireRespOk =
      ⟨some (.keyError "expires_in"), some malformedStore,
       sampleConfig, []⟩ :=
  claimC6 sampleConfig malformedStore (.keyError "expires_in") validNow
    refreshResp1 acquireRespOk (by rfl)

/-- C7: round-trip law — saving a well-formed record (one whose stored
timestamp the loader can parse) and loading it back yields the record
unchanged. -/
theorem claimC7 (r : StoreRecord) (lu : Datetime)
    (h : strptimeIso r.tokens_last_updated = some lu) :
    loadStore (saveStore r) = .ok r := by
  simp [loadStore, saveStore, lookupKey, h]

/-- C7 witness: the sample record round-trips. -/
theorem claimC7_witness : loadStore (saveStore sampleRecord) =
    .ok sampleRecord :=
  claimC7 sampleRecord sampleLast (by rfl)

/-- C8: idempotence — two immediately successive calls on a record that is
valid at both query times make no network calls and install the identical
stored access token both times (the second call runs on the file and
config state the first call left behind). -/
theorem claimC8 (cfg : Config) (d : Dict) (r : StoreRecord)
    (lu t1 t2 : Datetime) (rr1 ar1 rr2 ar2 : Response)
    (hl : loadStore d = .ok r)
    (hp : strptimeIso r.tokens_last_updated = some lu)
    (h1 : (epochMicros t1 : Int) - (epochMicros lu : Int)
        < r.expires_in * 1000000)
    (h2 : (epochMicros t2 : Int) - (epochMicros lu : Int)
        < r.expires_in * 1000000) :
    (getOrRefreshTokens cfg (some d) t1 rr1 ar1).calls = [] ∧
    (getOrRefreshTokens cfg (some d) t1 rr1 ar1).cfg.access_token =
      some r.access_token ∧
    (getOrRefreshTokens (getOrRefreshTokens cfg (some d) t1 rr1 ar1).cfg
        (getOrRefreshTokens cfg (some d) t1 rr1 ar1).fs t2 rr2
        ar2).calls = [] ∧
    (getOrRefreshTokens (getOrRefreshTokens cfg (some d) t1 rr1 ar1).cfg
        (getOrRefreshTokens cfg (some d) t1 rr1 ar1).fs t2 rr2
        ar2).cfg.access_token = some r.access_token := by
  have e1 := valid_run cfg d r lu t1 rr1 ar1 hl hp (by omega)
  have e2 := valid_run
    { cfg with access_token := some r.access_token,
               refresh_token := some r.refresh_token,
               expires_in := some (Value.int r.expires_in) }
    d r lu t2 rr2 ar2 hl hp (by omega)
  rw [e1]
  simp [e2]

/-- C8 witness: the sample record queried 100 s and then 200 s after
issuance installs AT0 both times with no network calls. -/
theorem claimC8_witness :
    (getOrRefreshTokens sampleConfig (some sampleStore) validNow
        refreshResp1 acquireRespOk).calls = [] ∧
    (getOrRefreshTokens sampleConfig (some sampleStore) validNow
        refreshResp1 acquireRespOk).cfg.access_token =
      some sampleRecord.access_token ∧
    (getOrRefreshTokens
        (getOrRefreshTokens sampleConfig (some sampleStore) validNow
          refreshResp1 acquireRespOk).cfg
        (getOrRefreshTokens sampleConfig (some sampleStore) validNow
          refreshResp1 acquireRespOk).fs validNow2 refreshResp2
        acquireRespOk).calls = [] ∧
    (getOrRefreshTokens
        (getOrRefreshTokens sampleConfig (some sampleStore) validNow
          refreshResp1 acquireRespOk).cfg
        (getOrRefreshTokens sampleConfig (some sampleStore) validNow
          refreshResp1 acquireRespOk).fs validNow2 refreshResp2
        acquireRespOk).cfg.access_token = some sampleRecord.access_token :=
  claimC8 sampleConfig sampleStore sampleRecord sampleLast validNow
    validNow2 refreshResp1 acquireRespOk refreshResp2 acquireRespOk
    (by rfl) (by rfl) (by decide) (by decide)

/-- C9 counterexample: two concurrent calls on the stale sample record,
interleaved so that both read the file before either writes it back, issue
two refresh calls to the provider — not exactly one — and the two callers
end with different access tokens (each from its own refresh response). -/
theorem claimC9_counterexample :
    (runSched staleNow refreshResp1 refreshResp2
        [true, false, true, false, true, false]
        ⟨sampleStore, .ready, .ready, 0⟩).refreshes = 2 ∧
    (runSched staleNow refreshResp1 refreshResp2
        [true, false, true, false, true, false]
        ⟨sampleStore, .ready, .ready, 0⟩).t1 =
      .finished (some (Value.str "AT1")) ∧
    (runSched staleNow refreshResp1 refreshResp2
        [true, false, true, false, true, false]
        ⟨sampleStore, .ready, .ready, 0⟩).t2 =
      .finished (some (Value.str "AT2")) :=
  ⟨by decide, by decide, by decide⟩

/-- C9 (amended): _get_or_refresh_tokens takes no lock, so the
load-check-refresh-save sequence is not serialized: for every stale
record, the interleaving of two concurrent calls in which both load before
either saves makes two refresh calls to the provider, and each caller
receives the access token of its own refresh response (distinct whenever
the provider issues distinct tokens); the file ends with the last writer's
record. -/
theorem claimC9 (d : Dict) (r : StoreRecord) (lu now : Datetime)
    (r1 r2 : Response) (a1 b1 a2 b2 : Value)
    (hl : loadStore d = .ok r)
    (hp : strptimeIso r.tokens_last_updated = some lu)
    (hs : (epochMicros now : Int) - (epochMicros lu : Int)
        > r.expires_in * 1000000)
    (h1a : lookupKey r1.body "access_token" = some a1)
    (h1r : lookupKey r1.body "refresh_token" = some b1)
    (h2a : lookupKey r2.body "access_token" = some a2)
    (h2r : lookupKey r2.body "refresh_token" = some b2) :
    runSched now r1 r2 [true, false, true, false, true, false]
        ⟨d, .ready, .ready, 0⟩ =
      ⟨refreshedStore d a2 b2 now, .finished (some a1),
       .finished (some a2), 2⟩ := by
  simp [runSched, stepSys, stepThread, hl, hp, hs, applyNewStore,
        h1a, h1r, h2a, h2r, lookupKey_refreshedStore_access]

/-- C9 witness: the stale sample record with two distinct refresh
responses. -/
theorem claimC9_witness :
    runSched staleNow refreshResp1 refreshResp2
        [true, false, true, false, true, false]
        ⟨sampleStore, .ready, .ready, 0⟩ =
      ⟨refreshedStore sampleStore (Value.str "AT2") (Value.str "RT2")
          staleNow,
       .finished (some (Value.str "AT1")),
       .finished (some (Value.str "AT2")), 2⟩ :=
  claimC9 sampleStore sampleRecord sampleLast staleNow refreshResp1
    refreshResp2 (Value.str "AT1") (Value.str "RT1") (Value.str "AT2")
    (Value.str "RT2") (by rfl) (by rfl) (by decide) (by rfl) (by rfl)
    (by rfl) (by rfl)

/-- C10: on the refresh path the persisted record and the in-memory
config keep the old record's expires_in — whatever expires_in the refresh
response carries is discarded — while access_token, refresh_token and
tokens_last_updated are the only fields updated. -/
theorem claimC10 (cfg : Config) (d : Dict) (r : StoreRecord)
    (lu now : Datetime) (rr ar : Response) (na nr : Value)
    (hl : loadStore d = .ok r)
    (hp : strptimeIso r.tokens_last_updated = some lu)
    (hs : (epochMicros now : Int) - (epochMicros lu : Int)
        > r.expires_in * 1000000)
    (ha : lookupKey rr.body "access_token" = some na)
    (hr : lookupKey rr.body "refresh_token" = some nr) :
    ∃ st, getOrRefreshTokens cfg (some d) now rr ar =
      ⟨none, some st,
       { cfg with access_token := some na, refresh_token := some nr,
                  expires_in := some (Value.int r.expires_in) },
       [.refresh r.refresh_token]⟩ ∧
      lookupKey st "expires_in" = some (Value.int r.expires_in) ∧
      lookupKey st "access_token" = some na ∧
      lookupKey st "refresh_token" = some nr ∧
      lookupKey st "tokens_last_updated" =
        some (Value.str (isoformat now)) := by
  refine ⟨refreshedStore d na nr now,
    stale_run cfg d r lu now rr ar na nr hl hp hs ha hr, ?_,
    lookupKey_refreshedStore_access d na nr now,
    lookupKey_refreshedStore_refresh d na nr now,
    lookupKey_refreshedStore_tlu d na nr now⟩
  rw [lookupKey_refreshedStore_expires]
  exact (loadStore_lookups d r hl).2.2.1

/-- C10 witness: the refresh response carries expires_in = 99999, yet the
persisted record and the config keep the stored 10800. -/
theorem claimC10_witness :
    ∃ st, getOrRefreshTokens sampleConfig (some sampleStore) staleNow
        refreshResp1 acquireRespOk =
      ⟨none, some st,
       { sampleConfig with
           access_token := some (Value.str "AT1"),
           refresh_token := some (Value.str "RT1"),
           expires_in := some (Value.int sampleRecord.expires_in) },
       [.refresh sampleRecord.refresh_token]⟩ ∧
      lookupKey st "expires_in" =
        some (Value.int sampleRecord.expires_in) ∧
      lookupKey st "access_token" = some (Value.str "AT1") ∧
      lookupKey st "refresh_token" = some (Value.str "RT1") ∧
      lookupKey st "tokens_last_updated" =
        some (Value.str (isoformat staleNow)) :=
  claimC10 sampleConfig sampleStore sampleRecord sampleLast staleNow
    refreshResp1 acquireRespOk (Value.str "AT1") (Value.str "RT1")
    (by rfl) (by rfl) (by decide) (by rfl) (by rfl)

end Pynetatmo
